import Mathlib

/-!
Verification of the k8s-game-rule-builder artifact lifecycle orchestrator.

The definitions below are a shallow embedding of the Python source:
  * `src/workflow/models.py`    — data model (`ValidationResult`, `TestResult`,
    `CombinedValidationResult` with its `should_keep` / `should_retry` properties);
  * `src/workflow/selectors.py` — routing functions;
  * `src/workflow/executors.py` — the executors `parse_generated_task`,
    `run_validation`, `make_decision`, `remove_task`, `run_pytest_skip_answer`,
    `complete_workflow`;
  * `src/agents/pytest_runner.py` — exit-code classification of a pytest run;
  * `src/agents/config.py`      — the path constants the executors use.

Effectful Python code (shared workflow state, filesystem moves, report files)
is embedded as explicit state passing: the run-scoped shared state becomes the
`SharedState` structure, and `complete_workflow` returns a description of the
filesystem effects it would perform (`CompleteEffects`).
-/

/-- String containment helpers (used to state "the report contains ..."). -/
def charsLead : List Char → List Char → Bool
  | [], _ => true
  | _ :: _, [] => false
  | p :: ps, s :: ss => p == s && charsLead ps ss

def charsWithin (pat : List Char) : List Char → Bool
  | [] => charsLead pat []
  | s :: ss => charsLead pat (s :: ss) || charsWithin pat ss

def strContains (s pat : String) : Bool :=
  charsWithin pat.data s.data

/-- Python's `str(bool)` rendering, used in the failure report. -/
def pyBool (b : Bool) : String :=
  if b then "True" else "False"

/-- `src/agents/config.py`: `Paths.game_name`. -/
def game_name : String := "game02"

/-- `src/agents/config.py`: `Paths.game_root` (= tests_root / game_name). -/
def game_root : String :=
  "/home/developer/Documents/data-disk/k8s-game-rule/tests/" ++ game_name

/-- `src/agents/config.py`: `Paths.unsuccessful_game_root`. -/
def unsuccessful_game_root : String :=
  "/home/developer/Documents/data-disk/k8s-game-rule/unsuccessful/" ++ game_name

/-- `src/workflow/models.py`: `ValidationResult`. -/
structure ValidationResult where
  is_valid : Bool
  reason : String
  task_id : String
  task_directory : String
deriving DecidableEq, Repr

/-- `src/workflow/models.py`: `TestResult`. -/
structure TestResult where
  is_valid : Bool
  reason : String
  task_id : String
  task_directory : String
  raw_output : String := ""
deriving DecidableEq, Repr

/-- `src/workflow/models.py`: `CombinedValidationResult`. -/
structure CombinedValidationResult where
  validation : ValidationResult
  test : TestResult
  retry_count : Int := 0
  max_retries : Int := 3
  target_topic : String := ""
  concept_description : String := ""
  difficulty : String := ""
  objective : String := ""
deriving DecidableEq, Repr

/-- `models.py` line 35-38: keep task only if both validation and tests pass. -/
def CombinedValidationResult.should_keep (c : CombinedValidationResult) : Bool :=
  c.validation.is_valid && c.test.is_valid

/-- `models.py` line 40-43: retry if task failed and have not exceeded max retries. -/
def CombinedValidationResult.should_retry (c : CombinedValidationResult) : Bool :=
  !c.should_keep && decide (c.retry_count < c.max_retries)

/-- `src/workflow/models.py`: `TaskInfo`. -/
structure TaskInfo where
  task_id : String
  task_directory : String
deriving DecidableEq, Repr

/-- `src/workflow/models.py`: `TaskWithValidation`. -/
structure TaskWithValidation where
  task_id : String
  task_directory : String
  validation : ValidationResult
deriving DecidableEq, Repr

/-- The run-scoped shared workflow state (`ctx.set_shared_state` /
`ctx.get_shared_state` in `src/workflow/executors.py`).  Per-task keys such as
`validation_{task_id}`, `failure_reasons_{task_id}` and `raw_output_{task_id}`
are embedded as association lists keyed by task id; a key absent from the store
corresponds to `get_shared_state` raising `KeyError`. -/
structure SharedState where
  task_id : Option String := none
  retry_count : Option Int := none
  max_retries : Option Int := none
  target_topic : Option String := none
  concept_description : Option String := none
  difficulty : Option String := none
  objective : Option String := none
  validations : List (String × ValidationResult) := []
  failure_reasons : List (String × List String) := []
  raw_outputs : List (String × String) := []
deriving DecidableEq, Repr

/-- `executors.py` `make_decision` (lines 189-258): combine the stored
validation verdict (falling back to an assumed pass), the test result and the
retry bookkeeping pulled from shared state into a `CombinedValidationResult`.
Every `try/except KeyError` fallback of the Python code is the `Option`
default here. -/
def make_decision (test_result : TestResult) (st : SharedState) :
    CombinedValidationResult :=
  let validation :=
    match st.validations.lookup test_result.task_id with
    | some v => v
    | none =>
      { is_valid := true
        reason := "Validation passed (assumed)"
        task_id := test_result.task_id
        task_directory := test_result.task_directory }
  { validation := validation
    test := test_result
    retry_count := (st.retry_count).getD 0
    max_retries := (st.max_retries).getD 3
    target_topic := (st.target_topic).getD ""
    concept_description := (st.concept_description).getD ""
    difficulty := (st.difficulty).getD ""
    objective := (st.objective).getD "" }

/-- `selectors.py` `select_action`: keep iff `should_keep`, else remove.
The Python function unpacks `target_ids` as `[keep_task_id, remove_task_id]`. -/
def select_action (combined : CombinedValidationResult)
    (keep_task_id remove_task_id : String) : List String :=
  if combined.should_keep then [keep_task_id] else [remove_task_id]

/-- `selectors.py` `select_skip_answer_action`: after the skip-answer test,
complete on `should_keep`, otherwise go to `check_loop`. -/
def select_skip_answer_action (combined : CombinedValidationResult)
    (check_loop_id complete_workflow_id : String) : List String :=
  if combined.should_keep then [complete_workflow_id] else [check_loop_id]

/-- `selectors.py` `select_loop_action`: repair (`fix_task` in the built
workflow) iff `should_retry`, else complete. -/
def select_loop_action (combined : CombinedValidationResult)
    (fix_task_id complete_workflow_id : String) : List String :=
  if combined.should_retry then [fix_task_id] else [complete_workflow_id]

/-- Overwrite-or-insert into an association list: the embedding of
`ctx.set_shared_state(key, value)` for the per-task keys. -/
def setKey {α : Type} (key : String) (v : α) :
    List (String × α) → List (String × α)
  | [] => [(key, v)]
  | (k, w) :: rest =>
    if k = key then (k, v) :: rest else (k, w) :: setKey key v rest

/-- `executors.py` `remove_task` (lines 271-303): record the failure reasons,
increment the retry count in shared state, and forward an updated
`CombinedValidationResult` carrying the incremented count. -/
def remove_task (combined : CombinedValidationResult) (st : SharedState) :
    CombinedValidationResult × SharedState :=
  let reasons :=
    (if !combined.validation.is_valid then
      ["Validation failed: " ++ combined.validation.reason] else []) ++
    (if !combined.test.is_valid then
      ["Tests failed: " ++ combined.test.reason] else [])
  let retry_count := combined.retry_count + 1
  let st' := { st with
    retry_count := some retry_count
    failure_reasons := setKey combined.test.task_id reasons st.failure_reasons }
  let updated := { combined with retry_count := retry_count }
  (updated, st')

/-- Structured result dictionaries returned by `pytest_runner._result` and
`k8s_task_validator._result`: `{"is_valid": ..., "reason": ..., "details": ...}`.
For the pytest runner the details are raw-output strings. -/
structure PytestResult where
  is_valid : Bool
  reason : String
  details : List String := []
deriving DecidableEq, Repr

/-- `src/agents/pytest_runner.py` `run_pytest_command` (lines 73-81): the
exit-code classification of a finished pytest subprocess.  The subprocess
itself is external; its observable inputs here are the return code and the
combined stdout+stderr text. -/
def run_pytest_command_classify (returncode : Int) (combined_output : String) :
    PytestResult :=
  if returncode = 0 then
    { is_valid := true, reason := "All tests passed", details := [combined_output] }
  else if returncode = 5 then
    { is_valid := false, reason := "No tests collected", details := [combined_output] }
  else
    { is_valid := false
      reason := "Tests failed (exit code " ++ toString returncode ++ ")"
      details := [combined_output] }

/-- One entry of the `details` list returned by
`k8s_task_validator.validate_task_directory`: a nested `_result` dict. -/
structure ValidatorDetail where
  is_valid : Bool
  reason : String
deriving DecidableEq, Repr

/-- The dict returned by `validate_task_directory`. -/
structure ValidatorOutput where
  is_valid : Bool
  details : List ValidatorDetail := []
deriving DecidableEq, Repr

/-- `executors.py` `run_validation` (lines 113-119): collect the failure
reasons out of the validator's detail list — only invalid details, and the
two bookkeeping reasons are filtered out. -/
def collectFailureReasons (result : ValidatorOutput) : List String :=
  if !result.is_valid then
    ((result.details.filter
        (fun d => !d.is_valid && d.reason ≠ "Validation completed" &&
          d.reason ≠ "Directory listing")).map (fun d => d.reason))
  else []

/-- `executors.py` `run_validation` (lines 121-129): build the detailed reason
string: join the first 3 failure causes and append a count of the rest. -/
def detailedReason (result : ValidatorOutput) : String :=
  let failure_reasons := collectFailureReasons result
  if failure_reasons ≠ [] then
    let joined := String.intercalate "; " (failure_reasons.take 3)
    if failure_reasons.length > 3 then
      joined ++ " (and " ++ toString (failure_reasons.length - 3) ++ " more errors)"
    else joined
  else if !result.is_valid then
    "Validation failed - check file structure and syntax"
  else
    "All validation checks passed"

/-- `executors.py` `run_validation` (lines 105-146): turn the validator output
into a `ValidationResult`, store it under `validation_{task_id}` in shared
state, and forward a `TaskWithValidation`. -/
def run_validation (task_info : TaskInfo) (result : ValidatorOutput)
    (st : SharedState) : TaskWithValidation × SharedState :=
  let validation : ValidationResult :=
    { is_valid := result.is_valid
      reason := detailedReason result
      task_id := task_info.task_id
      task_directory := task_info.task_directory }
  let st' := { st with
    validations := setKey validation.task_id validation st.validations }
  (⟨validation.task_id, validation.task_directory, validation⟩, st')

/-- `executors.py` `run_pytest_skip_answer` (lines 505-508): the raw output of
the skip-answer pytest run, and the check whether `test_05_check.py` failed in
it. -/
def skipAnswerRawOutput (result : PytestResult) : String :=
  match result.details with
  | [] => ""
  | x :: _ => x

/-- Python's `str.lower()` on the character list (ASCII case folding, as
`Char.toLower` does). -/
def strToLower (s : String) : String :=
  String.mk (s.data.map Char.toLower)

def test05Failed (raw_output : String) : Bool :=
  strContains raw_output "test_05_check.py" &&
    (strContains raw_output "FAILED" ||
      strContains (strToLower raw_output) "failed")

/-- `executors.py` `run_pytest_skip_answer` (lines 488-558): if
`test_05_check.py` failed with the answer suppressed, forward the combined
result unchanged; otherwise build a fresh failing `TestResult`, increment the
retry count, store the failure reasons, and forward an updated combined
result. -/
def run_pytest_skip_answer (combined : CombinedValidationResult)
    (result : PytestResult) (st : SharedState) :
    CombinedValidationResult × SharedState :=
  let raw_output := skipAnswerRawOutput result
  if test05Failed raw_output then
    (combined, st)
  else
    let new_test_result : TestResult :=
      { is_valid := false
        reason := "test_05_check.py did not fail when answer was skipped (SKIP_ANSWER_TESTS=True)"
        task_id := combined.test.task_id
        task_directory := combined.test.task_directory
        raw_output := raw_output }
    let retry_count := combined.retry_count + 1
    let failure_reasons :=
      ["Skip answer test validation failed: " ++ new_test_result.reason]
    let st' := { st with
      retry_count := some retry_count
      failure_reasons :=
        setKey combined.test.task_id failure_reasons st.failure_reasons }
    let updated := { combined with
      test := new_test_result
      retry_count := retry_count }
    (updated, st')

/-- Character classes of the task-id regex `(\d{3}_[a-z0-9_]+)` in
`executors.py` `parse_generated_task`. -/
def isDigitChar (c : Char) : Bool :=
  decide ('0' ≤ c) && decide (c ≤ '9')

def isIdChar (c : Char) : Bool :=
  (decide ('a' ≤ c) && decide (c ≤ 'z')) || isDigitChar c || c == '_'

/-- Match the core pattern `\d{3}_[a-z0-9_]+` at the head of the character
list (greedy trailing class, as `re` would match it). -/
def matchTaskIdCore : List Char → Option (List Char)
  | d1 :: d2 :: d3 :: u :: rest =>
    if isDigitChar d1 && isDigitChar d2 && isDigitChar d3 && u == '_' then
      let tail := rest.takeWhile isIdChar
      if tail.isEmpty then none
      else some (d1 :: d2 :: d3 :: '_' :: tail)
    else none
  | _ => none

/-- Match a literal, returning the remaining characters. -/
def matchLit : List Char → List Char → Option (List Char)
  | [], rest => some rest
  | _ :: _, [] => none
  | l :: ls, r :: rs => if l == r then matchLit ls rs else none

/-- Leftmost-match search, as `re.search` does: try the pattern at each
successive start position. -/
def findMatch (p : List Char → Option (List Char)) :
    List Char → Option (List Char)
  | [] => p []
  | c :: cs =>
    match p (c :: cs) with
    | some m => some m
    | none => findMatch p cs

/-- `executors.py` `parse_generated_task` (lines 85-95): the three-regex
cascade over the generator's response text —
`{game_name}/(\d{3}_[a-z0-9_]+)`, then `tests/{game_name}/(\d{3}_[a-z0-9_]+)`,
then the bare `(\d{3}_[a-z0-9_]+)`; the captured group is the core in every
pattern. -/
def findTaskIdInText (text : String) : Option String :=
  let s := text.data
  let pat1 := fun l => (matchLit (game_name ++ "/").data l).bind matchTaskIdCore
  let pat2 := fun l =>
    (matchLit ("tests/" ++ game_name ++ "/").data l).bind matchTaskIdCore
  match findMatch pat1 s with
  | some m => some (String.mk m)
  | none =>
    match findMatch pat2 s with
    | some m => some (String.mk m)
    | none => (findMatch matchTaskIdCore s).map String.mk

/-- `executors.py` `parse_generated_task` (lines 67-102): seed the retry
bookkeeping defaults, then resolve the task id — the id pinned in shared state
wins; only if none is pinned is the response text parsed; if neither yields an
id the run aborts with a `ValueError`.  The returned state reflects the shared
state after the executor (mutations before the raise persist; the retry count
is never incremented here). -/
def parse_generated_task (responseText : String) (st : SharedState) :
    SharedState × Except String TaskInfo :=
  let st1 :=
    if st.retry_count = none then { st with retry_count := some 0 } else st
  let st2 :=
    if st1.max_retries = none then { st1 with max_retries := some 3 } else st1
  match st2.task_id with
  | some tid =>
    (st2, .ok ⟨tid, "tests/" ++ game_name ++ "/" ++ tid⟩)
  | none =>
    match findTaskIdInText responseText with
    | some tid =>
      (st2, .ok ⟨tid, "tests/" ++ game_name ++ "/" ++ tid⟩)
    | none =>
      (st2, .error "Failed to parse task ID from generation and not found in shared state")

/-- The filesystem facts `complete_workflow` consults but does not control:
whether the task directory exists under the game root, whether the
destination name already exists in the unsuccessful area, the timestamp used
to disambiguate, and the content of the task's `session.json` when present. -/
structure FsContext where
  task_dir_exists : Bool
  dest_exists : Bool
  timestamp : String
  session_json : Option String
deriving DecidableEq, Repr

/-- The observable effects of `complete_workflow`: the destination the task
directory was moved to (if any), the failure report written (if any), and the
workflow outputs yielded. -/
structure CompleteEffects where
  moved_to : Option String
  report : Option String
  outputs : List String
deriving DecidableEq, Repr

/-- A line of 80 `=` characters, Python's `'='*80`. -/
def eqLine : String := String.mk (List.replicate 80 '=')

/-- `executors.py` `complete_workflow` (lines 587-594): failure reasons from
shared state, else recomputed from the combined result. -/
def finalFailureReasons (combined : CombinedValidationResult)
    (st : SharedState) : List String :=
  match st.failure_reasons.lookup combined.test.task_id with
  | some reasons => reasons
  | none =>
    (if !combined.validation.is_valid then
      ["Validation failed: " ++ combined.validation.reason] else []) ++
    (if !combined.test.is_valid then
      ["Tests failed: " ++ combined.test.reason] else [])

/-- `executors.py` `complete_workflow` (lines 598-607): raw test output from
shared state, else from the test result when non-empty. -/
def finalRawOutput (combined : CombinedValidationResult)
    (st : SharedState) : String :=
  match st.raw_outputs.lookup combined.test.task_id with
  | some raw => raw
  | none => if combined.test.raw_output ≠ "" then combined.test.raw_output else ""

/-- `executors.py` `complete_workflow` lines 624-625: one `  - reason` line
per failure reason, in order. -/
def reasonLines : List String → String
  | [] => ""
  | r :: rest => "  - " ++ r ++ "\n" ++ reasonLines rest

/-- `complete_workflow` lines 626-628: the validation-details block of the
report. -/
def validationBlock (combined : CombinedValidationResult) : String :=
  "\nValidation Details:\n" ++
  "  Valid: " ++ pyBool combined.validation.is_valid ++ "\n" ++
  "  Reason: " ++ combined.validation.reason ++ "\n"

/-- `complete_workflow` lines 629-631: the test-details block of the report. -/
def testBlock (combined : CombinedValidationResult) : String :=
  "\nTest Details:\n" ++
  "  Valid: " ++ pyBool combined.test.is_valid ++ "\n" ++
  "  Reason: " ++ combined.test.reason ++ "\n"

/-- `complete_workflow` lines 633-639: session.json content block, written
only when the content is non-empty. -/
def sessionBlock (session_json_content : String) : String :=
  if session_json_content ≠ "" then
    "\n" ++ eqLine ++ "\n" ++ "SESSION.JSON CONTENT:\n" ++ eqLine ++ "\n" ++
      session_json_content ++ "\n" ++ eqLine ++ "\n"
  else ""

/-- `complete_workflow` lines 641-651: the raw-test-output block, or the
pointer to `test_result.txt` when no raw output is available. -/
def rawOutputBlock (raw_test_output : String) : String :=
  if raw_test_output ≠ "" then
    "\n" ++ eqLine ++ "\n" ++ "FULL TEST OUTPUT:\n" ++ eqLine ++ "\n" ++
      raw_test_output ++ "\n" ++ eqLine ++ "\n"
  else
    "\n" ++ eqLine ++ "\n" ++ "Full test output saved in: test_result.txt\n" ++
      eqLine ++ "\n"

/-- `executors.py` `complete_workflow` (lines 620-651): the text of
`FAILURE_REPORT.txt`, written line by line in the Python code. -/
def failureReportText (combined : CombinedValidationResult)
    (reasons : List String) (session_json_content raw_test_output : String) :
    String :=
  "Task ID: " ++ combined.test.task_id ++ "\n" ++
  "Total Retry Attempts: " ++ toString combined.retry_count ++ "\n" ++
  "Final Failure Reasons:\n" ++
  reasonLines reasons ++
  validationBlock combined ++
  testBlock combined ++
  sessionBlock session_json_content ++
  rawOutputBlock raw_test_output

/-- `executors.py` `complete_workflow` (lines 561-655): success yields the
terminal success message; failure moves the task directory to the
unsuccessful area (timestamp suffix on collision) and writes
`FAILURE_REPORT.txt` there — but only when the task directory exists — and in
every failure case yields the terminal failure message. -/
def complete_workflow (combined : CombinedValidationResult)
    (st : SharedState) (fs : FsContext) : CompleteEffects :=
  if combined.should_keep then
    { moved_to := none
      report := none
      outputs := ["🏁 Workflow complete: Task " ++ combined.test.task_id ++
        " successfully generated"] }
  else
    let failMsg :=
      "🏁 Workflow complete: Failed to generate valid task after " ++
        toString combined.retry_count ++
        " retries. Task moved to unsuccessful folder."
    if fs.task_dir_exists then
      let dest :=
        if fs.dest_exists then
          unsuccessful_game_root ++ "/" ++ combined.test.task_id ++ "_" ++
            fs.timestamp
        else
          unsuccessful_game_root ++ "/" ++ combined.test.task_id
      let reasons := finalFailureReasons combined st
      let raw_test_output := finalRawOutput combined st
      let session_json_content := (fs.session_json).getD ""
      { moved_to := some dest
        report := some (failureReportText combined reasons
          session_json_content raw_test_output)
        outputs := [failMsg] }
    else
      { moved_to := none, report := none, outputs := [failMsg] }

/-! Concrete inputs used by the scenario theorem and the witnesses. -/

/-- A structurally valid task whose tests keep failing: the validation verdict
stored for it in shared state. -/
def scenarioValidation : ValidationResult :=
  { is_valid := true
    reason := "All validation checks passed"
    task_id := "001_demo_task"
    task_directory := "tests/game02/001_demo_task" }

/-- The failing test verdict produced on every attempt of the scenario. -/
def scenarioTest : TestResult :=
  { is_valid := false
    reason := "Tests failed (exit code 1)"
    task_id := "001_demo_task"
    task_directory := "tests/game02/001_demo_task"
    raw_output := "FAILED test_05_check.py" }

/-- The shared state at the first decision point: retry_count = 0,
max_retries = 3, validation verdict stored. -/
def scenarioState0 : SharedState :=
  { task_id := some "001_demo_task"
    retry_count := some 0
    max_retries := some 3
    target_topic := some "Pods"
    concept_description := some "Create a pod"
    difficulty := some "easy"
    objective := some "Learn pods"
    validations := [("001_demo_task", scenarioValidation)] }

/-- One failed attempt: the decision engine combines the stored verdicts with
the current retry bookkeeping, and the Fail transition (`remove_task`)
increments the retry count. -/
def scenarioStep (st : SharedState) : CombinedValidationResult × SharedState :=
  remove_task (make_decision scenarioTest st) st

/-- Shared state after `n` consecutive failed attempts. -/
def scenarioStateAfter : Nat → SharedState
  | 0 => scenarioState0
  | n + 1 => (scenarioStep (scenarioStateAfter n)).2

/-- The combined result flowing out of the `n+1`-st Fail transition. -/
def scenarioCombined (n : Nat) : CombinedValidationResult :=
  (scenarioStep (scenarioStateAfter n)).1

/-- Filesystem facts for the quarantine step of the scenario: the task
directory exists and there is no name collision. -/
def scenarioFs : FsContext :=
  { task_dir_exists := true
    dest_exists := false
    timestamp := "20260101_000000"
    session_json := none }

/-- A skip-answer pytest result whose raw output shows the final check step
passing (no failure observed), for the negative-verification claims. -/
def vacuousPytestResult : PytestResult :=
  { is_valid := true
    reason := "All tests passed"
    details := ["test_03_answer.py SKIPPED\ntest_05_check.py PASSED\n2 passed, 1 skipped"] }

/-- A combined result that had just passed both checks (the state in which the
negative-verification stage runs). -/
def passingCombined : CombinedValidationResult :=
  { validation := scenarioValidation
    test :=
      { is_valid := true
        reason := "All tests passed"
        task_id := "001_demo_task"
        task_directory := "tests/game02/001_demo_task"
        raw_output := "5 passed" }
    retry_count := 0
    max_retries := 3
    target_topic := "Pods"
    concept_description := "Create a pod"
    difficulty := "easy"
    objective := "Learn pods" }

/-- A combined result with the retry budget exhausted (retry_count = 3,
max_retries = 3) and failing tests. -/
def exhaustedCombined : CombinedValidationResult :=
  { validation := scenarioValidation
    test := scenarioTest
    retry_count := 3
    max_retries := 3
    target_topic := "Pods"
    concept_description := "Create a pod"
    difficulty := "easy"
    objective := "Learn pods" }

/-- Validator output with five distinct failure causes. -/
def fiveFailureOutput : ValidatorOutput :=
  { is_valid := false
    details :=
      [ { is_valid := true, reason := "Directory listing" }
      , { is_valid := false, reason := "File not found: a.py" }
      , { is_valid := false, reason := "File not found: b.py" }
      , { is_valid := false, reason := "YAML invalid in c.yaml" }
      , { is_valid := false, reason := "Python syntax error in d.py" }
      , { is_valid := false, reason := "JSON validation failed for e.json" } ] }

/-- Validator output where everything passed. -/
def passingValidatorOutput : ValidatorOutput :=
  { is_valid := true
    details := [ { is_valid := true, reason := "Validation completed" } ] }

/-- Filesystem facts where the task directory is absent from the game root. -/
def missingFs : FsContext :=
  { task_dir_exists := false
    dest_exists := false
    timestamp := "20260101_000000"
    session_json := none }

/-- The task info of the demo task. -/
def demoTaskInfo : TaskInfo :=
  { task_id := "001_demo_task"
    task_directory := "tests/game02/001_demo_task" }

/-- C1: For every CombinedValidationResult, should_keep is true iff both the
validation verdict's is_valid and the test verdict's is_valid are true. -/
theorem should_keep_iff (c : CombinedValidationResult) :
    c.should_keep = true ↔ (c.validation.is_valid = true ∧ c.test.is_valid = true) := by
  simp [CombinedValidationResult.should_keep]

/-- C2: For every CombinedValidationResult, should_retry is true iff should_keep
is false and retry_count is strictly less than max_retries. -/
theorem should_retry_iff (c : CombinedValidationResult) :
    c.should_retry = true ↔ (c.should_keep = false ∧ c.retry_count < c.max_retries) := by
  simp [CombinedValidationResult.should_retry]

/-! String containment helper lemmas. -/

theorem strData_append (s t : String) : (s ++ t).data = s.data ++ t.data := rfl

theorem strLength_append (s t : String) :
    (s ++ t).length = s.length + t.length := by
  show (s ++ t).data.length = s.data.length + t.data.length
  rw [strData_append, List.length_append]

theorem charsLead_self (p t : List Char) : charsLead p (p ++ t) = true := by
  induction p with
  | nil => simp [charsLead]
  | cons c cs ih => simp [charsLead, ih]

theorem charsLead_append_both (a p s : List Char) :
    charsLead (a ++ p) (a ++ s) = charsLead p s := by
  induction a with
  | nil => rfl
  | cons c cs ih => simp [charsLead, ih]

theorem charsLead_extend (p s t : List Char) (h : charsLead p s = true) :
    charsLead p (s ++ t) = true := by
  induction p generalizing s with
  | nil => simp [charsLead]
  | cons c cs ih =>
    cases s with
    | nil => simp [charsLead] at h
    | cons b bs =>
      simp [charsLead] at h ⊢
      exact ⟨h.1, ih bs h.2⟩

theorem charsWithin_of_lead (p s : List Char) (h : charsLead p s = true) :
    charsWithin p s = true := by
  cases s with
  | nil => simpa [charsWithin] using h
  | cons c cs => simp [charsWithin, h]

theorem charsWithin_skip (p s a : List Char) (h : charsWithin p s = true) :
    charsWithin p (a ++ s) = true := by
  induction a with
  | nil => simpa using h
  | cons c cs ih => simp [charsWithin, ih]

theorem charsWithin_extend (p s t : List Char) (h : charsWithin p s = true) :
    charsWithin p (s ++ t) = true := by
  induction s with
  | nil =>
    have hp : p = [] := by
      cases p with
      | nil => rfl
      | cons c cs => simp [charsWithin, charsLead] at h
    subst hp
    cases t with
    | nil => simp [charsWithin, charsLead]
    | cons c cs => simp [charsWithin, charsLead]
  | cons c cs ih =>
    simp only [charsWithin, Bool.or_eq_true] at h
    rcases h with h | h
    · exact charsWithin_of_lead _ _ (charsLead_extend _ _ _ h)
    · simp only [List.cons_append, charsWithin, Bool.or_eq_true]
      exact Or.inr (ih h)

theorem charsWithin_reasonLines (r : String) (rs : List String)
    (h : r ∈ rs) : charsWithin r.data (reasonLines rs).data = true := by
  induction rs with
  | nil => simp at h
  | cons r' rest ih =>
    rcases List.mem_cons.mp h with h | h
    · subst h
      simp only [reasonLines, strData_append, List.append_assoc]
      apply charsWithin_skip
      exact charsWithin_of_lead _ _ (charsLead_self _ _)
    · simp only [reasonLines, strData_append, List.append_assoc]
      apply charsWithin_skip
      apply charsWithin_skip
      apply charsWithin_skip
      exact ih h

/-! Containment facts about the failure report text. -/

theorem strContains_lead (s p b : String) (h : s = p ++ b) :
    strContains s p = true := by
  subst h
  show charsWithin p.data (p ++ b).data = true
  rw [String.data_append]
  exact charsWithin_of_lead _ _ (charsLead_self _ _)

theorem strContains_split (s a p b : String) (h : s = a ++ (p ++ b)) :
    strContains s p = true := by
  subst h
  show charsWithin p.data (a ++ (p ++ b)).data = true
  rw [String.data_append, String.data_append]
  exact charsWithin_skip _ _ _ (charsWithin_of_lead _ _ (charsLead_self _ _))

theorem strContains_mid (s a m b p : String)
    (h : s = a ++ (m ++ b)) (hm : charsWithin p.data m.data = true) :
    strContains s p = true := by
  subst h
  show charsWithin p.data (a ++ (m ++ b)).data = true
  rw [String.data_append, String.data_append]
  exact charsWithin_skip _ _ _ (charsWithin_extend _ _ _ hm)

theorem reportContains_taskId (c : CombinedValidationResult)
    (reasons : List String) (session raw : String) :
    strContains (failureReportText c reasons session raw)
      ("Task ID: " ++ c.test.task_id) = true := by
  apply strContains_lead _ _
    ("\n" ++ "Total Retry Attempts: " ++ toString c.retry_count ++ "\n" ++
      "Final Failure Reasons:\n" ++ reasonLines reasons ++ validationBlock c ++
      testBlock c ++ sessionBlock session ++ rawOutputBlock raw)
  simp only [failureReportText, String.append_assoc]

theorem reportContains_retryCount (c : CombinedValidationResult)
    (reasons : List String) (session raw : String) :
    strContains (failureReportText c reasons session raw)
      ("Total Retry Attempts: " ++ toString c.retry_count) = true := by
  apply strContains_split _ ("Task ID: " ++ c.test.task_id ++ "\n") _
    ("\n" ++ "Final Failure Reasons:\n" ++ reasonLines reasons ++
      validationBlock c ++ testBlock c ++ sessionBlock session ++
      rawOutputBlock raw)
  simp only [failureReportText, String.append_assoc]

theorem reportContains_reason (c : CombinedValidationResult)
    (reasons : List String) (session raw r : String) (h : r ∈ reasons) :
    strContains (failureReportText c reasons session raw) r = true := by
  apply strContains_mid _
    ("Task ID: " ++ c.test.task_id ++ "\n" ++ "Total Retry Attempts: " ++
      toString c.retry_count ++ "\n" ++ "Final Failure Reasons:\n")
    (reasonLines reasons)
    (validationBlock c ++ testBlock c ++ sessionBlock session ++
      rawOutputBlock raw)
  · simp only [failureReportText, String.append_assoc]
  · exact charsWithin_reasonLines r reasons h

theorem reportContains_validationBlock (c : CombinedValidationResult)
    (reasons : List String) (session raw : String) :
    strContains (failureReportText c reasons session raw)
      (validationBlock c) = true := by
  apply strContains_split _
    ("Task ID: " ++ c.test.task_id ++ "\n" ++ "Total Retry Attempts: " ++
      toString c.retry_count ++ "\n" ++ "Final Failure Reasons:\n" ++
      reasonLines reasons)
    _
    (testBlock c ++ sessionBlock session ++ rawOutputBlock raw)
  simp only [failureReportText, String.append_assoc]

theorem reportContains_testBlock (c : CombinedValidationResult)
    (reasons : List String) (session raw : String) :
    strContains (failureReportText c reasons session raw)
      (testBlock c) = true := by
  apply strContains_split _
    ("Task ID: " ++ c.test.task_id ++ "\n" ++ "Total Retry Attempts: " ++
      toString c.retry_count ++ "\n" ++ "Final Failure Reasons:\n" ++
      reasonLines reasons ++ validationBlock c)
    _
    (sessionBlock session ++ rawOutputBlock raw)
  simp only [failureReportText, String.append_assoc]

/-! The remaining claim theorems. -/

set_option maxRecDepth 4096

/-- C3: Starting a run with retry_count = 0 and max_retries = 3, a sequence of
consecutive failed attempts produces retry_count values 0, 1, 2, 3 (each Fail
transition through remove_task increments retry_count by exactly 1),
should_retry becomes false exactly when retry_count reaches 3, and the run
then routes to quarantine (`complete_workflow`) with a report showing
"Total Retry Attempts: 3". -/
theorem retry_budget_termination :
    (∀ (c : CombinedValidationResult) (st : SharedState),
        (remove_task c st).1.retry_count = c.retry_count + 1) ∧
    ([(make_decision scenarioTest scenarioState0).retry_count,
      (scenarioCombined 0).retry_count,
      (scenarioCombined 1).retry_count,
      (scenarioCombined 2).retry_count] = [0, 1, 2, 3]) ∧
    (scenarioCombined 0).should_retry = true ∧
    (scenarioCombined 1).should_retry = true ∧
    (scenarioCombined 2).should_retry = false ∧
    select_action (make_decision scenarioTest scenarioState0)
      "keep_task" "remove_task" = ["remove_task"] ∧
    select_loop_action (scenarioCombined 0)
      "fix_task" "complete_workflow" = ["fix_task"] ∧
    select_loop_action (scenarioCombined 1)
      "fix_task" "complete_workflow" = ["fix_task"] ∧
    select_loop_action (scenarioCombined 2)
      "fix_task" "complete_workflow" = ["complete_workflow"] ∧
    strContains
      ((complete_workflow (scenarioCombined 2) (scenarioStateAfter 3)
        scenarioFs).report.getD "")
      "Total Retry Attempts: 3" = true := by
  refine ⟨fun c st => rfl, ?_⟩
  decide

/-- C6: make_decision falls back to an assumed-pass validation verdict (with
an explicit "assumed" in its reason) when no verdict is stored for the task
id, and uses the stored verdict unchanged when one exists. -/
theorem make_decision_validation_fallback (t : TestResult) (st : SharedState) :
    (st.validations.lookup t.task_id = none →
      (make_decision t st).validation.is_valid = true ∧
      strContains (make_decision t st).validation.reason "assumed" = true) ∧
    (∀ v, st.validations.lookup t.task_id = some v →
      (make_decision t st).validation = v) := by
  constructor
  · intro h
    constructor
    · simp [make_decision, h]
    · have hr : (make_decision t st).validation.reason =
          "Validation passed (assumed)" := by simp [make_decision, h]
      rw [hr]
      decide
  · intro v h
    simp [make_decision, h]

/-- Witness for C6 at concrete inputs: an empty shared state takes the
assumed-pass fallback, a state with a stored verdict returns it unchanged. -/
theorem make_decision_validation_fallback_witness :
    ((make_decision scenarioTest {}).validation.is_valid = true ∧
      strContains (make_decision scenarioTest {}).validation.reason
        "assumed" = true) ∧
    (make_decision scenarioTest scenarioState0).validation =
      scenarioValidation :=
  ⟨(make_decision_validation_fallback scenarioTest {}).1 (by decide),
   (make_decision_validation_fallback scenarioTest scenarioState0).2
     scenarioValidation (by decide)⟩

/-- C7: the validation adapter's reason string joins at most the first 3
failure causes and appends a count of the rest; when validation passes the
reason states that all checks passed. -/
theorem run_validation_reason_cap (task_info : TaskInfo)
    (result : ValidatorOutput) (st : SharedState) :
    (result.is_valid = true →
      (run_validation task_info result st).1.validation.reason =
        "All validation checks passed") ∧
    (collectFailureReasons result ≠ [] →
      (run_validation task_info result st).1.validation.reason =
        String.intercalate "; " ((collectFailureReasons result).take 3) ++
          (if 3 < (collectFailureReasons result).length then
            " (and " ++ toString ((collectFailureReasons result).length - 3) ++
              " more errors)"
          else "")) := by
  constructor
  · intro h
    show detailedReason result = _
    simp [detailedReason, collectFailureReasons, h]
  · intro h
    show detailedReason result = _
    rw [detailedReason]
    simp only [h, ne_eq, not_false_eq_true, if_true]
    split
    · simp only [String.append_assoc]
    · rw [String.append_empty]

/-- Witness for C7: a passing validator output yields the all-passed reason;
five failure causes are capped at 3 with "(and 2 more errors)" appended. -/
theorem run_validation_reason_cap_witness :
    (passingValidatorOutput.is_valid = true ∧
      (run_validation demoTaskInfo passingValidatorOutput {}).1.validation.reason =
        "All validation checks passed") ∧
    (collectFailureReasons fiveFailureOutput ≠ [] ∧
      (run_validation demoTaskInfo fiveFailureOutput {}).1.validation.reason =
        String.intercalate "; " ((collectFailureReasons fiveFailureOutput).take 3) ++
          (if 3 < (collectFailureReasons fiveFailureOutput).length then
            " (and " ++
              toString ((collectFailureReasons fiveFailureOutput).length - 3) ++
              " more errors)"
          else "")) :=
  ⟨⟨rfl, (run_validation_reason_cap demoTaskInfo passingValidatorOutput {}).1 rfl⟩,
   ⟨by decide, (run_validation_reason_cap demoTaskInfo fiveFailureOutput {}).2
     (by decide)⟩⟩

/-- C8: the pytest adapter classifies exit code 0 as passing, exit code 5 (no
tests collected) as failing with a reason distinct from the reason used for
any other nonzero exit code (tests executed and failed). -/
theorem run_pytest_classification (code : Int) (out : String) :
    (run_pytest_command_classify 0 out).is_valid = true ∧
    (run_pytest_command_classify 0 out).reason = "All tests passed" ∧
    (run_pytest_command_classify 5 out).is_valid = false ∧
    (run_pytest_command_classify 5 out).reason = "No tests collected" ∧
    (code ≠ 0 → code ≠ 5 →
      (run_pytest_command_classify code out).is_valid = false ∧
      (run_pytest_command_classify code out).reason =
        "Tests failed (exit code " ++ toString code ++ ")" ∧
      (run_pytest_command_classify code out).reason ≠ "No tests collected") := by
  refine ⟨rfl, rfl, rfl, rfl, ?_⟩
  intro h0 h5
  refine ⟨?_, ?_, ?_⟩
  · simp [run_pytest_command_classify, h0, h5]
  · simp [run_pytest_command_classify, h0, h5]
  · simp only [run_pytest_command_classify, h0, h5, if_false, if_neg]
    intro hEq
    have hl := congrArg String.length hEq
    rw [strLength_append, strLength_append] at hl
    have h1 : ("Tests failed (exit code ").length = 24 := by decide
    have h2 : (")" : String).length = 1 := by decide
    have h3 : ("No tests collected").length = 18 := by decide
    rw [h1, h2, h3] at hl
    omega

/-- Witness for C8 at exit code 1: failing verdict, its reason carries the
exit code and differs from the no-tests-collected reason. -/
theorem run_pytest_classification_witness :
    (1 : Int) ≠ 0 ∧ (1 : Int) ≠ 5 ∧
    ((run_pytest_command_classify 1 "collected 1 item").is_valid = false ∧
      (run_pytest_command_classify 1 "collected 1 item").reason =
        "Tests failed (exit code " ++ toString (1 : Int) ++ ")" ∧
      (run_pytest_command_classify 1 "collected 1 item").reason ≠
        "No tests collected") :=
  ⟨by decide, by decide,
    (run_pytest_classification 1 "collected 1 item").2.2.2.2
      (by decide) (by decide)⟩

/-- C9: the Parse stage uses the task id pinned in shared state when present
(for any response text), parses the response text only when none is pinned,
and errors out — without touching the retry count beyond seeding its default —
when neither source yields an id. -/
theorem parse_generated_task_spec (text : String) (st : SharedState) :
    (∀ tid, st.task_id = some tid →
      (parse_generated_task text st).2 =
        Except.ok (TaskInfo.mk tid ("tests/" ++ game_name ++ "/" ++ tid))) ∧
    (st.task_id = none →
      ∀ tid, findTaskIdInText text = some tid →
        (parse_generated_task text st).2 =
          Except.ok (TaskInfo.mk tid ("tests/" ++ game_name ++ "/" ++ tid))) ∧
    (st.task_id = none → findTaskIdInText text = none →
      (parse_generated_task text st).2 = Except.error
        "Failed to parse task ID from generation and not found in shared state" ∧
      (parse_generated_task text st).1.retry_count =
        (if st.retry_count = none then some 0 else st.retry_count) ∧
      (parse_generated_task text st).1.max_retries =
        (if st.max_retries = none then some 3 else st.max_retries)) := by
  refine ⟨?_, ?_, ?_⟩
  · intro tid h
    cases hrc : st.retry_count <;> cases hmr : st.max_retries <;>
      simp [parse_generated_task, h, hrc, hmr]
  · intro h tid hfind
    cases hrc : st.retry_count <;> cases hmr : st.max_retries <;>
      simp [parse_generated_task, h, hrc, hmr, hfind]
  · intro h hfind
    cases hrc : st.retry_count <;> cases hmr : st.max_retries <;>
      simp [parse_generated_task, h, hrc, hmr, hfind]

/-- Witness for C9: a pinned id wins over the response text, an unpinned state
parses the text, and a state with neither aborts with the parse error. -/
theorem parse_generated_task_spec_witness :
    (scenarioState0.task_id = some "001_demo_task" ∧
      (parse_generated_task "use 999_other_task instead" scenarioState0).2 =
        Except.ok (TaskInfo.mk "001_demo_task"
          ("tests/" ++ game_name ++ "/" ++ "001_demo_task"))) ∧
    ((({} : SharedState).task_id = none ∧
      findTaskIdInText "created tests/game02/003_pods for you" = some "003_pods") ∧
      (parse_generated_task "created tests/game02/003_pods for you" {}).2 =
        Except.ok (TaskInfo.mk "003_pods"
          ("tests/" ++ game_name ++ "/" ++ "003_pods"))) ∧
    ((({} : SharedState).task_id = none ∧
      findTaskIdInText "nothing to see here" = none) ∧
      ((parse_generated_task "nothing to see here" {}).2 = Except.error
        "Failed to parse task ID from generation and not found in shared state" ∧
      (parse_generated_task "nothing to see here" {}).1.retry_count =
        (if ({} : SharedState).retry_count = none then some 0
          else ({} : SharedState).retry_count) ∧
      (parse_generated_task "nothing to see here" {}).1.max_retries =
        (if ({} : SharedState).max_retries = none then some 3
          else ({} : SharedState).max_retries))) :=
  ⟨⟨rfl, (parse_generated_task_spec "use 999_other_task instead" scenarioState0).1
      "001_demo_task" rfl⟩,
   ⟨⟨rfl, by decide⟩,
     (parse_generated_task_spec "created tests/game02/003_pods for you" {}).2.1
       rfl "003_pods" (by decide)⟩,
   ⟨⟨rfl, by decide⟩,
     (parse_generated_task_spec "nothing to see here" {}).2.2 rfl (by decide)⟩⟩

/-- C4 (amended): when the skip-answer run does not show `test_05_check.py`
failing, the stage produces a fresh failed TestVerdict whose reason contains
"did not fail when answer was skipped", increments retry_count once (in both
the forwarded combined result and shared state), and routes to the
retry/quarantine decision (`check_loop`) exactly like any other test
failure. -/
theorem run_pytest_skip_answer_guard (combined : CombinedValidationResult)
    (result : PytestResult) (st : SharedState)
    (h : test05Failed (skipAnswerRawOutput result) = false) :
    (run_pytest_skip_answer combined result st).1.test.is_valid = false ∧
    strContains (run_pytest_skip_answer combined result st).1.test.reason
      "did not fail when answer was skipped" = true ∧
    (run_pytest_skip_answer combined result st).1.retry_count =
      combined.retry_count + 1 ∧
    (run_pytest_skip_answer combined result st).2.retry_count =
      some (combined.retry_count + 1) ∧
    (run_pytest_skip_answer combined result st).1.should_keep = false ∧
    select_skip_answer_action (run_pytest_skip_answer combined result st).1
      "check_loop" "complete_workflow" = ["check_loop"] := by
  have h1 : (run_pytest_skip_answer combined result st).1.test.is_valid = false := by
    simp [run_pytest_skip_answer, h]
  have hr : (run_pytest_skip_answer combined result st).1.test.reason =
      "test_05_check.py did not fail when answer was skipped (SKIP_ANSWER_TESTS=True)" := by
    simp [run_pytest_skip_answer, h]
  have hk : (run_pytest_skip_answer combined result st).1.should_keep = false := by
    simp [CombinedValidationResult.should_keep, h1]
  refine ⟨h1, ?_, ?_, ?_, hk, ?_⟩
  · rw [hr]
    decide
  · simp [run_pytest_skip_answer, h]
  · simp [run_pytest_skip_answer, h]
  · simp [select_skip_answer_action, hk]

/-- Witness for C4 at a run whose skip-answer output shows the check step
passing. -/
theorem run_pytest_skip_answer_guard_witness :
    test05Failed (skipAnswerRawOutput vacuousPytestResult) = false ∧
    ((run_pytest_skip_answer passingCombined vacuousPytestResult
        scenarioState0).1.test.is_valid = false ∧
      strContains (run_pytest_skip_answer passingCombined vacuousPytestResult
        scenarioState0).1.test.reason "did not fail when answer was skipped" = true ∧
      (run_pytest_skip_answer passingCombined vacuousPytestResult
        scenarioState0).1.retry_count = passingCombined.retry_count + 1 ∧
      (run_pytest_skip_answer passingCombined vacuousPytestResult
        scenarioState0).2.retry_count = some (passingCombined.retry_count + 1) ∧
      (run_pytest_skip_answer passingCombined vacuousPytestResult
        scenarioState0).1.should_keep = false ∧
      select_skip_answer_action (run_pytest_skip_answer passingCombined
        vacuousPytestResult scenarioState0).1 "check_loop" "complete_workflow" =
        ["check_loop"]) :=
  ⟨by decide, run_pytest_skip_answer_guard passingCombined vacuousPytestResult
    scenarioState0 (by decide)⟩

/-- Counterexample to C4 as stated: at a vacuously-passing skip-answer run the
fresh verdict's reason does not contain "did not fail when solution was
withheld" (the code writes "did not fail when answer was skipped"). -/
theorem run_pytest_skip_answer_reason_counterexample :
    test05Failed (skipAnswerRawOutput vacuousPytestResult) = false ∧
    strContains (run_pytest_skip_answer passingCombined vacuousPytestResult
        scenarioState0).1.test.reason
      "did not fail when solution was withheld" = false := by
  decide

/-- C5 (amended): when a run terminates in failure with the budget exhausted
and the artifact's directory exists under the game root, the directory is
relocated to the unsuccessful area (timestamp suffix on name collision) and
the failure report written there contains the task id, "Total Retry
Attempts: " followed by the final retry count, every final failure reason,
and both verdicts' is_valid and reason text. -/
theorem complete_workflow_quarantine (combined : CombinedValidationResult)
    (st : SharedState) (fs : FsContext)
    (hkeep : combined.should_keep = false)
    (_hretry : combined.should_retry = false)
    (hdir : fs.task_dir_exists = true) :
    (complete_workflow combined st fs).moved_to =
      some (if fs.dest_exists then
        unsuccessful_game_root ++ "/" ++ combined.test.task_id ++ "_" ++
          fs.timestamp
      else unsuccessful_game_root ++ "/" ++ combined.test.task_id) ∧
    ∃ rpt, (complete_workflow combined st fs).report = some rpt ∧
      strContains rpt ("Task ID: " ++ combined.test.task_id) = true ∧
      strContains rpt
        ("Total Retry Attempts: " ++ toString combined.retry_count) = true ∧
      (∀ r ∈ finalFailureReasons combined st, strContains rpt r = true) ∧
      strContains rpt (validationBlock combined) = true ∧
      strContains rpt (testBlock combined) = true := by
  constructor
  · simp [complete_workflow, hkeep, hdir]
  · refine ⟨failureReportText combined (finalFailureReasons combined st)
      ((fs.session_json).getD "") (finalRawOutput combined st),
      ?_, ?_, ?_, ?_, ?_, ?_⟩
    · simp [complete_workflow, hkeep, hdir]
    · exact reportContains_taskId combined (finalFailureReasons combined st)
        ((fs.session_json).getD "") (finalRawOutput combined st)
    · exact reportContains_retryCount combined (finalFailureReasons combined st)
        ((fs.session_json).getD "") (finalRawOutput combined st)
    · intro r hr
      exact reportContains_reason combined (finalFailureReasons combined st)
        ((fs.session_json).getD "") (finalRawOutput combined st) r hr
    · exact reportContains_validationBlock combined
        (finalFailureReasons combined st) ((fs.session_json).getD "")
        (finalRawOutput combined st)
    · exact reportContains_testBlock combined
        (finalFailureReasons combined st) ((fs.session_json).getD "")
        (finalRawOutput combined st)

/-- Witness for C5 at a concrete exhausted run whose directory exists. -/
theorem complete_workflow_quarantine_witness :
    exhaustedCombined.should_keep = false ∧
    exhaustedCombined.should_retry = false ∧
    scenarioFs.task_dir_exists = true ∧
    ((complete_workflow exhaustedCombined scenarioState0 scenarioFs).moved_to =
      some (if scenarioFs.dest_exists then
        unsuccessful_game_root ++ "/" ++ exhaustedCombined.test.task_id ++ "_" ++
          scenarioFs.timestamp
      else unsuccessful_game_root ++ "/" ++ exhaustedCombined.test.task_id) ∧
    ∃ rpt,
      (complete_workflow exhaustedCombined scenarioState0 scenarioFs).report =
        some rpt ∧
      strContains rpt ("Task ID: " ++ exhaustedCombined.test.task_id) = true ∧
      strContains rpt ("Total Retry Attempts: " ++
        toString exhaustedCombined.retry_count) = true ∧
      (∀ r ∈ finalFailureReasons exhaustedCombined scenarioState0,
        strContains rpt r = true) ∧
      strContains rpt (validationBlock exhaustedCombined) = true ∧
      strContains rpt (testBlock exhaustedCombined) = true) :=
  ⟨by decide, by decide, rfl,
    complete_workflow_quarantine exhaustedCombined scenarioState0 scenarioFs
      (by decide) (by decide) rfl⟩

/-- Counterexample to C5 as stated: a run that terminates in failure with the
budget exhausted but whose directory is missing gets neither a relocation nor
a failure report. -/
theorem complete_workflow_quarantine_counterexample :
    exhaustedCombined.should_keep = false ∧
    exhaustedCombined.should_retry = false ∧
    (complete_workflow exhaustedCombined scenarioState0 missingFs).report =
      none ∧
    (complete_workflow exhaustedCombined scenarioState0 missingFs).moved_to =
      none := by
  decide

/-- C10: when the task directory does not exist under the game root, the
failing terminal stage performs no relocation and writes no failure report,
yet still emits the terminal failure message. -/
theorem complete_workflow_missing_dir (combined : CombinedValidationResult)
    (st : SharedState) (fs : FsContext)
    (hkeep : combined.should_keep = false)
    (hdir : fs.task_dir_exists = false) :
    (complete_workflow combined st fs).moved_to = none ∧
    (complete_workflow combined st fs).report = none ∧
    (complete_workflow combined st fs).outputs =
      ["🏁 Workflow complete: Failed to generate valid task after " ++
        toString combined.retry_count ++
        " retries. Task moved to unsuccessful folder."] := by
  simp [complete_workflow, hkeep, hdir]

/-- Witness for C10 at a concrete exhausted run whose directory is missing. -/
theorem complete_workflow_missing_dir_witness :
    exhaustedCombined.should_keep = false ∧
    missingFs.task_dir_exists = false ∧
    ((complete_workflow exhaustedCombined scenarioState0 missingFs).moved_to =
      none ∧
    (complete_workflow exhaustedCombined scenarioState0 missingFs).report =
      none ∧
    (complete_workflow exhaustedCombined scenarioState0 missingFs).outputs =
      ["🏁 Workflow complete: Failed to generate valid task after " ++
        toString exhaustedCombined.retry_count ++
        " retries. Task moved to unsuccessful folder."]) :=
  ⟨by decide, rfl,
    complete_workflow_missing_dir exhaustedCombined scenarioState0 missingFs
      (by decide) rfl⟩
